import Mathlib

/-!
Shallow embedding of the task-management REST backend
(Express route handlers in `routes/taskRoutes.js` and `routes/authRoutes.js`,
served over a MySQL store).

The relational store is modelled as Lean lists of rows (`List User`,
`List Task`); each SQL statement of the source becomes the corresponding
list operation.  Every route handler becomes a pure function from the
request data and the current store to an HTTP-level result and the new
store.  External collaborators (bcrypt, the JWT library, `validator.js`)
are passed in as parameters or modelled by small executable definitions,
noted at their definition sites.
-/

namespace TaskApp

/-- A row of the `users` table:
`users(id, username, email, password, role, created_at)`. -/
structure User where
  id : Nat
  username : String
  email : String
  password : String
  role : String
  created_at : Nat
deriving DecidableEq, Repr

/-- A row of the `tasks` table:
`tasks(id, title, description, status, user_id, created_at, updated_at)`.
`description` is `none` for SQL NULL. -/
structure Task where
  id : Nat
  title : String
  description : Option String
  status : String
  user_id : Nat
  created_at : Nat
  updated_at : Nat
deriving DecidableEq, Repr

/-- The decoded JWT payload attached by the `auth` middleware as
`req.user`: the token is signed over `{ id, username, role }`. -/
structure Claims where
  id : Nat
  username : String
  role : String
deriving DecidableEq, Repr

/-- The two tables of the relational store. -/
structure DB where
  users : List User
  tasks : List Task
deriving DecidableEq, Repr

/-- An error response produced by a handler:
`fieldErrors` models `res.status(400).json({ errors: [...] })` from
`express-validator` (each entry is the error message string), and
`msg` models `res.status(s).json({ message })`. -/
inductive ApiErr where
  | fieldErrors (status : Nat) (errors : List String)
  | msg (status : Nat) (message : String)
deriving DecidableEq, Repr

/-- A row of the `SELECT t.*, u.username FROM tasks t JOIN users u ON
t.user_id = u.id` queries: a task together with its owner's username. -/
structure TaskRow where
  task : Task
  username : String
deriving DecidableEq, Repr

/-- The inner join `tasks t JOIN users u ON t.user_id = u.id`: a task
contributes a row exactly when a user with its `user_id` exists (ids are
unique, so `find?` picks that user). -/
def joinRows (db : DB) : List TaskRow :=
  db.tasks.filterMap fun t =>
    (db.users.find? fun u => u.id == t.user_id).map fun u =>
      { task := t, username := u.username }

/-- `GET /api/tasks/:id`: select the joined row with the requested id,
404 if absent, 403 unless the caller is admin or owns the task. -/
def getTaskById (user : Claims) (db : DB) (i : Nat) : Except ApiErr TaskRow :=
  match (joinRows db).find? (fun r => r.task.id == i) with
  | none => .error (.msg 404 "Task not found")
  | some r =>
    if user.role != "admin" && r.task.user_id != user.id then
      .error (.msg 403 "Access denied")
    else
      .ok r

/-- `GET /api/tasks`: the joined rows, restricted to the caller's own
tasks unless the caller is admin (`WHERE t.user_id = ?`), ordered by
`t.created_at DESC`. -/
def listTasks (user : Claims) (db : DB) : List TaskRow :=
  let rows := joinRows db
  let rows := if user.role != "admin" then
      rows.filter (fun r => r.task.user_id == user.id)
    else rows
  rows.mergeSort fun a b => b.task.created_at ≤ a.task.created_at

/-- The status enumeration used by the `isIn` validators. -/
def statusEnum : List String := ["pending", "in-progress", "completed"]

/-- Request body of `PUT /api/tasks/:id`; each field is `none` when the
JSON field is absent (`undefined`). -/
structure UpdateBody where
  title : Option String
  description : Option String
  status : Option String
deriving DecidableEq, Repr

/-- The `express-validator` chain of the update route:
`body('title').optional().notEmpty()` and
`body('status').optional().isIn(['pending','in-progress','completed'])`.
An `optional()` check is skipped when the field is absent; a failing
check contributes its default message `"Invalid value"`. -/
def validatePut (b : UpdateBody) : List String :=
  (match b.title with
   | some t => if t == "" then ["Invalid value"] else []
   | none => []) ++
  (match b.status with
   | some s => if statusEnum.contains s then [] else ["Invalid value"]
   | none => [])

/-- JavaScript truthiness of a possibly-absent string field: `undefined`
and the empty string are falsy, every other string is truthy. -/
def truthy : Option String → Bool
  | some s => s != ""
  | none => false

/-- The `UPDATE tasks SET ... WHERE id = ?` column list of the update
route: `title` when `if (title)` holds, `description` when
`description !== undefined`, `status` when `if (status)` holds.  All
other columns are untouched by the statement. -/
def applyUpdates (b : UpdateBody) (t : Task) : Task :=
  let t1 := if truthy b.title then { t with title := b.title.getD t.title } else t
  let t2 := if b.description.isSome then { t1 with description := b.description } else t1
  if truthy b.status then { t2 with status := b.status.getD t2.status } else t2

/-- Number of entries pushed onto the `updates` array of the update
route. -/
def suppliedFields (b : UpdateBody) : Nat :=
  (if truthy b.title then 1 else 0) +
  (if b.description.isSome then 1 else 0) +
  (if truthy b.status then 1 else 0)

/-- `PUT /api/tasks/:id`: validation, then existence
(`SELECT * FROM tasks WHERE id = ?`), then the admin/owner check, then
`updates.length === 0`, then the UPDATE statement followed by a
re-select of the row.  Returns the response together with the `tasks`
table after the request. -/
def updateTask (user : Claims) (i : Nat) (b : UpdateBody) (tasks : List Task) :
    Except ApiErr (Option Task) × List Task :=
  if validatePut b != [] then
    (.error (.fieldErrors 400 (validatePut b)), tasks)
  else
    match tasks.find? (fun t => t.id == i) with
    | none => (.error (.msg 404 "Task not found"), tasks)
    | some task =>
      if user.role != "admin" && task.user_id != user.id then
        (.error (.msg 403 "Access denied"), tasks)
      else if suppliedFields b == 0 then
        (.error (.msg 400 "No fields to update"), tasks)
      else
        let newTasks := tasks.map fun t => if t.id == i then applyUpdates b t else t
        (.ok (newTasks.find? (fun t => t.id == i)), newTasks)

/-- `DELETE /api/tasks/:id`: existence, then the admin/owner check, then
`DELETE FROM tasks WHERE id = ?`.  The success payload is the response
message. -/
def deleteTask (user : Claims) (i : Nat) (tasks : List Task) :
    Except ApiErr String × List Task :=
  match tasks.find? (fun t => t.id == i) with
  | none => (.error (.msg 404 "Task not found"), tasks)
  | some task =>
    if user.role != "admin" && task.user_id != user.id then
      (.error (.msg 403 "Access denied"), tasks)
    else
      (.ok "Task deleted successfully", tasks.filter fun t => !(t.id == i))

/-- Request body of `POST /api/tasks`. -/
structure CreateBody where
  title : Option String
  description : Option String
  status : Option String
deriving DecidableEq, Repr

/-- The `express-validator` chain of the create route:
`body('title').notEmpty().withMessage('Title is required')` (fails on an
absent or empty title) and `body('status').optional().isIn([...])`. -/
def validateCreate (b : CreateBody) : List String :=
  (match b.title with
   | some t => if t == "" then ["Title is required"] else []
   | none => ["Title is required"]) ++
  (match b.status with
   | some s => if statusEnum.contains s then [] else ["Invalid value"]
   | none => [])

/-- `POST /api/tasks`: validation, then
`INSERT INTO tasks (title, description, status, user_id) VALUES (?,?,?,?)`
with `status = 'pending'` when absent, followed by a re-select of the row
by `insertId`.  `newId` is the id generated by the database and `now` the
`created_at`/`updated_at` timestamp it assigns. -/
def createTask (user : Claims) (b : CreateBody) (tasks : List Task) (newId now : Nat) :
    Except ApiErr (Option Task) × List Task :=
  if validateCreate b != [] then
    (.error (.fieldErrors 400 (validateCreate b)), tasks)
  else
    let newTask : Task :=
      { id := newId, title := b.title.getD "", description := b.description,
        status := b.status.getD "pending", user_id := user.id,
        created_at := now, updated_at := now }
    let newTasks := tasks ++ [newTask]
    (.ok (newTasks.find? (fun t => t.id == newId)), newTasks)

/-- Split a character list at every occurrence of the separator, keeping
empty segments (the semantics of `String.splitOn` for one-character
separators). -/
def splitOnChar (c : Char) : List Char → List (List Char)
  | [] => [[]]
  | x :: xs =>
    match splitOnChar c xs, x == c with
    | rest, true => [] :: rest
    | [], false => [[x]]
    | seg :: rest, false => (x :: seg) :: rest

/-- Modelled from the spec: the `validator.js` `isEmail` check used by
`body('email').isEmail()` lives in an external library, not in this
repository; the spec only requires "email well-formed".  Modelled as:
exactly one `@`, a non-empty local part, and a domain of at least two
non-empty dot-separated labels. -/
def isEmail (s : String) : Bool :=
  match splitOnChar '@' s.toList with
  | [lp, domain] =>
    lp != [] && domain != [] &&
      (splitOnChar '.' domain).length ≥ 2 &&
      (splitOnChar '.' domain).all (· != [])
  | _ => false

/-- The JWT payload signed by both auth routes:
`jwt.sign({ id, username, role }, secret, { expiresIn: '24h' })`.  The
signature and the 24-hour expiry are the JWT library's concern; the
embedded claims are what the routes choose. -/
structure Token where
  id : Nat
  username : String
  role : String
deriving DecidableEq, Repr

/-- The `user` object both auth routes place in their JSON response. -/
structure PublicUser where
  id : Nat
  username : String
  email : String
  role : String
deriving DecidableEq, Repr

/-- The success body of `POST /api/auth/register` and
`POST /api/auth/login`: `{ message, token, user }`. -/
structure AuthResp where
  message : String
  token : Token
  user : PublicUser
deriving DecidableEq, Repr

/-- Request body of `POST /api/auth/register`. -/
structure RegisterBody where
  username : String
  email : String
  password : String
deriving DecidableEq, Repr

/-- The `express-validator` chain of the register route:
`body('username').notEmpty()`, `body('email').isEmail()`,
`body('password').isLength({ min: 6 })`, each with its `withMessage`. -/
def validateRegister (b : RegisterBody) : List String :=
  (if b.username == "" then ["Username is required"] else []) ++
  (if isEmail b.email then [] else ["Valid email is required"]) ++
  (if b.password.length ≥ 6 then [] else ["Password must be at least 6 characters"])

/-- `POST /api/auth/register`: validation, then the duplicate check
`SELECT * FROM users WHERE email = ? OR username = ?`, then
`INSERT INTO users (username, email, password) VALUES (?,?,?)`, then the
token.  `hash` is bcrypt (external, salted: passed in as a parameter),
`newId` the database-generated id, `now` the `created_at` the database
assigns.  The INSERT names no `role` column; the stored row's role is
the schema default.  Modelled from the spec: the `users` table schema is
not under the sources; the spec fixes the default — "persists new User
with role=`user`" — so the inserted row carries role `"user"`, as does
the signed token (`role: 'user'` is explicit in the route). -/
def register (b : RegisterBody) (users : List User) (newId now : Nat)
    (hash : String → String) : Except ApiErr AuthResp × List User :=
  if validateRegister b != [] then
    (.error (.fieldErrors 400 (validateRegister b)), users)
  else if users.any (fun u => u.email == b.email || u.username == b.username) then
    (.error (.msg 400 "User already exists"), users)
  else
    let newUser : User :=
      { id := newId, username := b.username, email := b.email,
        password := hash b.password, role := "user", created_at := now }
    (.ok { message := "User registered successfully",
           token := { id := newId, username := b.username, role := "user" },
           user := { id := newId, username := b.username, email := b.email,
                     role := "user" } },
     users ++ [newUser])

/-- The `express-validator` chain of the login route:
`body('email').isEmail()` and `body('password').notEmpty()`. -/
def validateLogin (email password : String) : List String :=
  (if isEmail email then [] else ["Valid email is required"]) ++
  (if password == "" then ["Password is required"] else [])

/-- `POST /api/auth/login`: validation, then
`SELECT * FROM users WHERE email = ?`, 401 `"Invalid credentials"` when
no row matches, then `bcrypt.compare(password, user.password)` (external:
passed in as `verify`), the same 401 when it fails, else the token and
public user fields.  The store is read-only here, so only the response
is returned. -/
def login (email password : String) (users : List User)
    (verify : String → String → Bool) : Except ApiErr AuthResp :=
  if validateLogin email password != [] then
    .error (.fieldErrors 400 (validateLogin email password))
  else
    match users.find? (fun u => u.email == email) with
    | none => .error (.msg 401 "Invalid credentials")
    | some user =>
      if !(verify password user.password) then
        .error (.msg 401 "Invalid credentials")
      else
        .ok { message := "Login successful",
              token := { id := user.id, username := user.username, role := user.role },
              user := { id := user.id, username := user.username,
                        email := user.email, role := user.role } }

/-! ### Helper lemmas -/

/-- The admin/owner gate condition is false when the caller is admin or
owns the resource. -/
theorem gate_eq_false (user : Claims) (uid : Nat)
    (h : user.role = "admin" ∨ uid = user.id) :
    (user.role != "admin" && uid != user.id) = false := by
  rcases h with h | h <;> simp [h]

/-- The admin/owner gate condition is true for a non-admin that does not
own the resource. -/
theorem gate_eq_true (user : Claims) (uid : Nat)
    (h1 : user.role ≠ "admin") (h2 : uid ≠ user.id) :
    (user.role != "admin" && uid != user.id) = true := by
  simp [h1, h2]

/-! ### Claims -/

/-- Claim C1: for every verified claims and every existing task, the
read-single, update and delete handlers allow the action when the
caller's role is `admin` or the task's `user_id` equals the caller's id,
and otherwise fail with 403 `"Access denied"`. -/
theorem C1_admin_or_owner_gate :
    (∀ (user : Claims) (db : DB) (i : Nat) (r : TaskRow),
      (joinRows db).find? (fun x => x.task.id == i) = some r →
      ((user.role = "admin" ∨ r.task.user_id = user.id →
          getTaskById user db i = .ok r) ∧
       (user.role ≠ "admin" → r.task.user_id ≠ user.id →
          getTaskById user db i = .error (.msg 403 "Access denied")))) ∧
    (∀ (user : Claims) (i : Nat) (b : UpdateBody) (tasks : List Task) (t : Task),
      tasks.find? (fun x => x.id == i) = some t →
      validatePut b = [] → suppliedFields b ≠ 0 →
      ((user.role = "admin" ∨ t.user_id = user.id →
          ∃ p ts, updateTask user i b tasks = (.ok p, ts)) ∧
       (user.role ≠ "admin" → t.user_id ≠ user.id →
          updateTask user i b tasks = (.error (.msg 403 "Access denied"), tasks)))) ∧
    (∀ (user : Claims) (i : Nat) (tasks : List Task) (t : Task),
      tasks.find? (fun x => x.id == i) = some t →
      ((user.role = "admin" ∨ t.user_id = user.id →
          deleteTask user i tasks =
            (.ok "Task deleted successfully", tasks.filter fun x => !(x.id == i))) ∧
       (user.role ≠ "admin" → t.user_id ≠ user.id →
          deleteTask user i tasks = (.error (.msg 403 "Access denied"), tasks)))) := by
  refine ⟨?_, ?_, ?_⟩
  · intro user db i r hfind
    constructor
    · intro h
      simp [getTaskById, hfind, gate_eq_false user r.task.user_id h]
    · intro h1 h2
      simp [getTaskById, hfind, gate_eq_true user r.task.user_id h1 h2]
  · intro user i b tasks t hfind hval hsup
    have hsup0 : (suppliedFields b == 0) = false := by simpa using hsup
    constructor
    · intro h
      simp [updateTask, hval, hfind, gate_eq_false user t.user_id h, hsup0]
    · intro h1 h2
      simp [updateTask, hval, hfind, gate_eq_true user t.user_id h1 h2]
  · intro user i tasks t hfind
    constructor
    · intro h
      simp [deleteTask, hfind, gate_eq_false user t.user_id h]
    · intro h1 h2
      simp [deleteTask, hfind, gate_eq_true user t.user_id h1 h2]

/-- Witness for C1: concretely, non-admin bob (id 2) is denied alice's
task on all three routes, and owner alice (id 1) is allowed to read it. -/
theorem C1_admin_or_owner_gate_witness :
    getTaskById ⟨2, "bob", "user"⟩
        ⟨[⟨1, "alice", "alice@x.com", "H", "user", 0⟩],
         [⟨1, "t", none, "pending", 1, 0, 0⟩]⟩ 1
      = .error (.msg 403 "Access denied") ∧
    updateTask ⟨2, "bob", "user"⟩ 1 ⟨some "n", none, none⟩
        [⟨1, "t", none, "pending", 1, 0, 0⟩]
      = (.error (.msg 403 "Access denied"), [⟨1, "t", none, "pending", 1, 0, 0⟩]) ∧
    deleteTask ⟨2, "bob", "user"⟩ 1 [⟨1, "t", none, "pending", 1, 0, 0⟩]
      = (.error (.msg 403 "Access denied"), [⟨1, "t", none, "pending", 1, 0, 0⟩]) ∧
    getTaskById ⟨1, "alice", "user"⟩
        ⟨[⟨1, "alice", "alice@x.com", "H", "user", 0⟩],
         [⟨1, "t", none, "pending", 1, 0, 0⟩]⟩ 1
      = .ok ⟨⟨1, "t", none, "pending", 1, 0, 0⟩, "alice"⟩ := by
  refine ⟨?_, ?_, ?_, ?_⟩
  · exact (C1_admin_or_owner_gate.1 ⟨2, "bob", "user"⟩
      ⟨[⟨1, "alice", "alice@x.com", "H", "user", 0⟩],
       [⟨1, "t", none, "pending", 1, 0, 0⟩]⟩ 1
      ⟨⟨1, "t", none, "pending", 1, 0, 0⟩, "alice"⟩ rfl).2 (by decide) (by decide)
  · exact (C1_admin_or_owner_gate.2.1 ⟨2, "bob", "user"⟩ 1 ⟨some "n", none, none⟩
      [⟨1, "t", none, "pending", 1, 0, 0⟩] ⟨1, "t", none, "pending", 1, 0, 0⟩
      rfl rfl (by decide)).2 (by decide) (by decide)
  · exact (C1_admin_or_owner_gate.2.2 ⟨2, "bob", "user"⟩ 1
      [⟨1, "t", none, "pending", 1, 0, 0⟩] ⟨1, "t", none, "pending", 1, 0, 0⟩
      rfl).2 (by decide) (by decide)
  · exact (C1_admin_or_owner_gate.1 ⟨1, "alice", "user"⟩
      ⟨[⟨1, "alice", "alice@x.com", "H", "user", 0⟩],
       [⟨1, "t", none, "pending", 1, 0, 0⟩]⟩ 1
      ⟨⟨1, "t", none, "pending", 1, 0, 0⟩, "alice"⟩ rfl).1 (Or.inr rfl)

/-- Every row of the join corresponds to a task of the store. -/
theorem joinRows_task_mem (db : DB) (r : TaskRow) (h : r ∈ joinRows db) :
    r.task ∈ db.tasks := by
  simp only [joinRows, List.mem_filterMap] at h
  obtain ⟨t, ht, hmap⟩ := h
  rcases hu : db.users.find? fun u => u.id == t.user_id with _ | u <;> rw [hu] at hmap
  · simp at hmap
  · simp only [Option.map_some'] at hmap
    cases hmap
    exact ht

/-- Every task whose owner exists in the users table contributes a row
to the join. -/
theorem exists_joinRow (db : DB) (t : Task) (ht : t ∈ db.tasks)
    (hu : ∃ u ∈ db.users, u.id = t.user_id) :
    ∃ r ∈ joinRows db, r.task = t := by
  obtain ⟨u, hum, huid⟩ := hu
  have hs : (db.users.find? fun x => x.id == t.user_id).isSome := by
    rw [List.find?_isSome]
    exact ⟨u, hum, by simp [huid]⟩
  obtain ⟨u2, hu2⟩ := Option.isSome_iff_exists.mp hs
  refine ⟨⟨t, u2.username⟩, ?_, rfl⟩
  simp only [joinRows, List.mem_filterMap]
  exact ⟨t, ht, by rw [hu2]; rfl⟩

/-- The list route's output is sorted by `created_at`, most recent
first. -/
theorem listTasks_sorted (user : Claims) (db : DB) :
    (listTasks user db).Pairwise
      (fun a b => b.task.created_at ≤ a.task.created_at) := by
  simp only [listTasks]
  refine List.Pairwise.imp ?_ (List.sorted_mergeSort ?_ ?_ _)
  · intro a b h
    simpa using h
  · intro a b c hab hbc
    simp only [decide_eq_true_eq] at *
    omega
  · intro a b
    simp only [Bool.or_eq_true, decide_eq_true_eq]
    omega

/-- Claim C2: the list route returns all tasks for an admin and exactly
the caller's own tasks otherwise, ordered by creation time descending.
Stated under the spec's referential-integrity invariant (every task's
`user_id` references an existing user), since the route's SQL inner
join drops orphaned tasks. -/
theorem C2_list_filter_and_order :
    ∀ (user : Claims) (db : DB),
      (∀ t ∈ db.tasks, ∃ u ∈ db.users, u.id = t.user_id) →
      (∀ t ∈ db.tasks, (user.role = "admin" ∨ t.user_id = user.id) →
          ∃ r ∈ listTasks user db, r.task = t) ∧
      (∀ r ∈ listTasks user db,
          r.task ∈ db.tasks ∧ (user.role = "admin" ∨ r.task.user_id = user.id)) ∧
      (listTasks user db).Pairwise
        (fun a b => b.task.created_at ≤ a.task.created_at) := by
  intro user db hinv
  refine ⟨?_, ?_, listTasks_sorted user db⟩
  · intro t ht hperm
    obtain ⟨r, hr, hrt⟩ := exists_joinRow db t ht (hinv t ht)
    refine ⟨r, ?_, hrt⟩
    by_cases hadm : user.role = "admin"
    · have hb : (user.role != "admin") = false := by simp [hadm]
      simpa [listTasks, hb] using hr
    · rcases hperm with h | h
      · exact absurd h hadm
      · have hb : (user.role != "admin") = true := by simp [hadm]
        simp only [listTasks, hb, if_true, List.mem_mergeSort, List.mem_filter]
        exact ⟨hr, by simp [hrt, h]⟩
  · intro r hr
    by_cases hadm : user.role = "admin"
    · have hb : (user.role != "admin") = false := by simp [hadm]
      simp only [listTasks, hb, if_false, List.mem_mergeSort] at hr
      exact ⟨joinRows_task_mem db r hr, Or.inl hadm⟩
    · have hb : (user.role != "admin") = true := by simp [hadm]
      simp only [listTasks, hb, if_true, List.mem_mergeSort, List.mem_filter] at hr
      exact ⟨joinRows_task_mem db r hr.1, Or.inr (by simpa using hr.2)⟩

/-- Witness for C2: in a concrete store, the admin's listing contains
the (sole) task of user 1. -/
theorem C2_list_filter_and_order_witness :
    ∃ r ∈ listTasks ⟨9, "root", "admin"⟩
        ⟨[⟨1, "alice", "alice@x.com", "H", "user", 0⟩],
         [⟨1, "t", none, "pending", 1, 0, 0⟩]⟩,
      r.task = ⟨1, "t", none, "pending", 1, 0, 0⟩ :=
  (C2_list_filter_and_order ⟨9, "root", "admin"⟩
      ⟨[⟨1, "alice", "alice@x.com", "H", "user", 0⟩],
       [⟨1, "t", none, "pending", 1, 0, 0⟩]⟩ (by decide)).1
    ⟨1, "t", none, "pending", 1, 0, 0⟩ (by decide) (Or.inl rfl)

/-- Counterexample to C3 as stated: a registration request whose
username duplicates stored user `alice` but whose email is malformed and
password too short fails with the field-validation errors, not with the
duplicate-user error (validation runs before the duplicate check). -/
theorem C3_counterexample :
    (register ⟨"alice", "bad", "x"⟩
        [⟨1, "alice", "alice@x.com", "H", "user", 0⟩] 2 0 (fun p => p)).fst
      = .error (.fieldErrors 400
          ["Valid email is required", "Password must be at least 6 characters"]) ∧
    ApiErr.fieldErrors 400
        ["Valid email is required", "Password must be at least 6 characters"]
      ≠ .msg 400 "User already exists" ∧
    (register ⟨"alice", "bad", "x"⟩
        [⟨1, "alice", "alice@x.com", "H", "user", 0⟩] 2 0 (fun p => p)).snd
      = [⟨1, "alice", "alice@x.com", "H", "user", 0⟩] := by
  exact ⟨rfl, by decide, rfl⟩

/-- Claim C3 (amended): a duplicate registration request never creates a
row, and when it passes field validation it fails with the
duplicate-user error (400 `"User already exists"`). -/
theorem C3_duplicate_register :
    ∀ (b : RegisterBody) (users : List User) (newId now : Nat)
      (hash : String → String),
      (∃ u ∈ users, u.email = b.email ∨ u.username = b.username) →
      (register b users newId now hash).snd = users ∧
      (validateRegister b = [] →
        register b users newId now hash
          = (.error (.msg 400 "User already exists"), users)) := by
  intro b users newId now hash ⟨u, hu, hdup⟩
  have hany : (users.any fun x => x.email == b.email || x.username == b.username)
      = true := by
    rw [List.any_eq_true]
    exact ⟨u, hu, by rcases hdup with h | h <;> simp [h]⟩
  constructor
  · by_cases hv : validateRegister b = []
    · simp [register, hv, hany]
    · have hv2 : (validateRegister b != []) = true := by simpa using hv
      simp [register, hv2]
  · intro hv
    simp [register, hv, hany]

/-- Witness for C3: registering `bob` with `alice`'s email against a
store holding `alice` fails with the duplicate error and leaves the
store unchanged. -/
theorem C3_duplicate_register_witness :
    register ⟨"bob", "alice@x.com", "secret1"⟩
        [⟨1, "alice", "alice@x.com", "H", "user", 0⟩] 2 0 (fun p => p)
      = (.error (.msg 400 "User already exists"),
         [⟨1, "alice", "alice@x.com", "H", "user", 0⟩]) :=
  (C3_duplicate_register ⟨"bob", "alice@x.com", "secret1"⟩
      [⟨1, "alice", "alice@x.com", "H", "user", 0⟩] 2 0 (fun p => p)
      ⟨⟨1, "alice", "alice@x.com", "H", "user", 0⟩, by decide, Or.inl rfl⟩).2
    (by decide)

/-- Claim C4: for login requests that reach the credential phase (field
validation passed), the result for an email with no stored user and the
result for a stored user with a failing password check are the very same
error: status 401, message `"Invalid credentials"`. -/
theorem C4_login_indistinguishable :
    ∀ (users : List User) (verify : String → String → Bool)
      (e1 p1 e2 p2 : String) (u : User),
      isEmail e1 = true → p1 ≠ "" →
      isEmail e2 = true → p2 ≠ "" →
      users.find? (fun x => x.email == e1) = none →
      users.find? (fun x => x.email == e2) = some u →
      verify p2 u.password = false →
      login e1 p1 users verify = .error (.msg 401 "Invalid credentials") ∧
      login e2 p2 users verify = .error (.msg 401 "Invalid credentials") ∧
      login e1 p1 users verify = login e2 p2 users verify := by
  intro users verify e1 p1 e2 p2 u he1 hp1 he2 hp2 hf1 hf2 hv
  have hval1 : validateLogin e1 p1 = [] := by simp [validateLogin, he1, hp1]
  have hval2 : validateLogin e2 p2 = [] := by simp [validateLogin, he2, hp2]
  have h1 : login e1 p1 users verify = .error (.msg 401 "Invalid credentials") := by
    simp [login, hval1, hf1]
  have h2 : login e2 p2 users verify = .error (.msg 401 "Invalid credentials") := by
    simp [login, hval2, hf2, hv]
  exact ⟨h1, h2, h1.trans h2.symm⟩

/-- Witness for C4: concretely, a login for absent `bob@x.com` and a
wrong-password login for stored `alice@x.com` yield the same 401. -/
theorem C4_login_indistinguishable_witness :
    login "bob@x.com" "secret" [⟨1, "alice", "alice@x.com", "H", "user", 0⟩]
        (fun _ _ => false)
      = .error (.msg 401 "Invalid credentials") ∧
    login "alice@x.com" "wrong" [⟨1, "alice", "alice@x.com", "H", "user", 0⟩]
        (fun _ _ => false)
      = .error (.msg 401 "Invalid credentials") :=
  ⟨(C4_login_indistinguishable [⟨1, "alice", "alice@x.com", "H", "user", 0⟩]
      (fun _ _ => false) "bob@x.com" "secret" "alice@x.com" "wrong"
      ⟨1, "alice", "alice@x.com", "H", "user", 0⟩
      (by decide) (by decide) (by decide) (by decide) rfl rfl rfl).1,
   (C4_login_indistinguishable [⟨1, "alice", "alice@x.com", "H", "user", 0⟩]
      (fun _ _ => false) "bob@x.com" "secret" "alice@x.com" "wrong"
      ⟨1, "alice", "alice@x.com", "H", "user", 0⟩
      (by decide) (by decide) (by decide) (by decide) rfl rfl rfl).2.1⟩

/-- Counterexample to C5 as stated: an update on absent id 5 whose body
carries an invalid status fails with the field-validation error, not
with 404 `"Task not found"` (validation runs before the existence
check). -/
theorem C5_counterexample :
    (updateTask ⟨1, "root", "admin"⟩ 5 ⟨none, none, some "bogus"⟩ []).fst
      = .error (.fieldErrors 400 ["Invalid value"]) ∧
    ApiErr.fieldErrors 400 ["Invalid value"] ≠ .msg 404 "Task not found" :=
  ⟨rfl, by decide⟩

/-- Claim C5 (amended): on an id absent from the store, delete always
fails with 404 `"Task not found"`, and update does so whenever its body
passes field validation — in both cases regardless of the caller's role
or ownership, the existence check preceding the ownership check. -/
theorem C5_missing_id_not_found :
    ∀ (user : Claims) (i : Nat) (tasks : List Task),
      tasks.find? (fun t => t.id == i) = none →
      (∀ b : UpdateBody, validatePut b = [] →
        updateTask user i b tasks = (.error (.msg 404 "Task not found"), tasks)) ∧
      deleteTask user i tasks = (.error (.msg 404 "Task not found"), tasks) := by
  intro user i tasks hfind
  constructor
  · intro b hval
    simp [updateTask, hval, hfind]
  · simp [deleteTask, hfind]

/-- Witness for C5: a non-admin updating or deleting absent id 7 in an
empty store gets 404. -/
theorem C5_missing_id_not_found_witness :
    updateTask ⟨2, "bob", "user"⟩ 7 ⟨some "x", none, none⟩ []
      = (.error (.msg 404 "Task not found"), []) ∧
    deleteTask ⟨2, "bob", "user"⟩ 7 [] = (.error (.msg 404 "Task not found"), []) :=
  ⟨(C5_missing_id_not_found ⟨2, "bob", "user"⟩ 7 [] rfl).1
      ⟨some "x", none, none⟩ rfl,
   (C5_missing_id_not_found ⟨2, "bob", "user"⟩ 7 [] rfl).2⟩

/-- Counterexample to C6 as stated: the zero-field message is
`"No fields to update"` (capital N), not `"no fields to update"`, and a
zero-field update on an absent id fails with 404 `"Task not found"`, not
with a validation error. -/
theorem C6_counterexample :
    (updateTask ⟨1, "alice", "user"⟩ 1 ⟨none, none, none⟩
        [⟨1, "t", none, "pending", 1, 0, 0⟩]).fst
      = .error (.msg 400 "No fields to update") ∧
    "No fields to update" ≠ "no fields to update" ∧
    (updateTask ⟨1, "root", "admin"⟩ 5 ⟨none, none, none⟩ []).fst
      = .error (.msg 404 "Task not found") :=
  ⟨rfl, by decide, rfl⟩

/-- Claim C6 (amended): update fails with a 400 validation error when a
supplied status is outside the enum or a supplied title is the empty
string (checked before existence and ownership); when the task exists,
the caller is admin or owner, and no field is supplied, it fails with
400 `"No fields to update"`; in every such failure the store is
unchanged. -/
theorem C6_update_validation :
    ∀ (user : Claims) (i : Nat) (b : UpdateBody) (tasks : List Task),
      ((∃ s, b.status = some s ∧ s ∉ statusEnum) ∨ b.title = some "" →
        validatePut b ≠ [] ∧
        updateTask user i b tasks
          = (.error (.fieldErrors 400 (validatePut b)), tasks)) ∧
      (∀ t, tasks.find? (fun x => x.id == i) = some t →
        (user.role = "admin" ∨ t.user_id = user.id) →
        b.title = none → b.description = none → b.status = none →
        updateTask user i b tasks
          = (.error (.msg 400 "No fields to update"), tasks)) := by
  intro user i b tasks
  constructor
  · intro h
    have hne : validatePut b ≠ [] := by
      rcases h with ⟨s, hs, hmem⟩ | ht
      · have hcontains : statusEnum.contains s = false := by
          simp [List.contains, hmem]
        intro hc
        simp only [validatePut, hs, hcontains] at hc
        simp at hc
      · intro hc
        simp only [validatePut, ht] at hc
        simp at hc
    have hb : (validatePut b != []) = true := by simpa using hne
    exact ⟨hne, by simp [updateTask, hb]⟩
  · intro t hfind hperm ht hd hs
    have hval : validatePut b = [] := by simp [validatePut, ht, hs]
    have hsupp : (suppliedFields b == 0) = true := by
      simp [suppliedFields, truthy, ht, hd, hs]
    simp [updateTask, hval, hfind, gate_eq_false user t.user_id hperm, hsupp]

/-- Witness for C6: a concrete invalid-status update leaves the store
unchanged with a validation error, and a concrete zero-field update by
the owner yields 400 `"No fields to update"`. -/
theorem C6_update_validation_witness :
    updateTask ⟨1, "alice", "user"⟩ 1 ⟨none, none, some "done"⟩
        [⟨1, "t", none, "pending", 1, 0, 0⟩]
      = (.error (.fieldErrors 400
          (validatePut ⟨none, none, some "done"⟩)),
         [⟨1, "t", none, "pending", 1, 0, 0⟩]) ∧
    updateTask ⟨1, "alice", "user"⟩ 1 ⟨none, none, none⟩
        [⟨1, "t", none, "pending", 1, 0, 0⟩]
      = (.error (.msg 400 "No fields to update"),
         [⟨1, "t", none, "pending", 1, 0, 0⟩]) :=
  ⟨((C6_update_validation ⟨1, "alice", "user"⟩ 1 ⟨none, none, some "done"⟩
      [⟨1, "t", none, "pending", 1, 0, 0⟩]).1
      (Or.inl ⟨"done", rfl, by decide⟩)).2,
   (C6_update_validation ⟨1, "alice", "user"⟩ 1 ⟨none, none, none⟩
      [⟨1, "t", none, "pending", 1, 0, 0⟩]).2
      ⟨1, "t", none, "pending", 1, 0, 0⟩ rfl (Or.inr rfl) rfl rfl rfl⟩

/-- Counterexample to C7 as stated: a create with a non-empty title but
an out-of-enum status fails with a field-validation error and inserts
nothing, where the claim's "otherwise" promises a created task. -/
theorem C7_counterexample :
    (createTask ⟨1, "alice", "user"⟩ ⟨some "a", none, some "done"⟩ [] 1 0).fst
      = .error (.fieldErrors 400 ["Invalid value"]) ∧
    (createTask ⟨1, "alice", "user"⟩ ⟨some "a", none, some "done"⟩ [] 1 0).snd
      = [] :=
  ⟨rfl, rfl⟩

/-- Claim C7 (amended): create fails with a 400 validation error when
the title is absent or empty, and likewise when a supplied status lies
outside the enum; when the title is non-empty and any supplied status
lies in the enum, it appends exactly one task whose status is the
supplied status or `"pending"` and whose `user_id` is the caller's id. -/
theorem C7_create_validates_and_defaults :
    ∀ (user : Claims) (b : CreateBody) (tasks : List Task) (newId now : Nat),
      (b.title = none ∨ b.title = some "" →
        validateCreate b ≠ [] ∧
        createTask user b tasks newId now
          = (.error (.fieldErrors 400 (validateCreate b)), tasks)) ∧
      ((∃ s, b.status = some s ∧ s ∉ statusEnum) →
        validateCreate b ≠ [] ∧
        createTask user b tasks newId now
          = (.error (.fieldErrors 400 (validateCreate b)), tasks)) ∧
      (∀ ti, b.title = some ti → ti ≠ "" →
        (∀ s, b.status = some s → s ∈ statusEnum) →
        createTask user b tasks newId now
          = (.ok ((tasks ++ [(⟨newId, ti, b.description,
                b.status.getD "pending", user.id, now, now⟩ : Task)]).find?
                  (fun t => t.id == newId)),
             tasks ++ [(⟨newId, ti, b.description, b.status.getD "pending",
                        user.id, now, now⟩ : Task)])) := by
  intro user b tasks newId now
  refine ⟨?_, ?_, ?_⟩
  · intro h
    have hne : validateCreate b ≠ [] := by
      rcases h with ht | ht <;>
        · intro hc
          simp only [validateCreate, ht] at hc
          simp at hc
    have hb : (validateCreate b != []) = true := by simpa using hne
    exact ⟨hne, by simp [createTask, hb]⟩
  · intro ⟨s, hs, hmem⟩
    have hcontains : statusEnum.contains s = false := by
      simp [List.contains, hmem]
    have hne : validateCreate b ≠ [] := by
      intro hc
      simp only [validateCreate, hs, hcontains] at hc
      simp at hc
    have hb : (validateCreate b != []) = true := by simpa using hne
    exact ⟨hne, by simp [createTask, hb]⟩
  · intro ti ht hti hstat
    have htieq : (ti == "") = false := by simpa using hti
    have hval : validateCreate b = [] := by
      rcases hsb : b.status with _ | s
      · simp [validateCreate, ht, htieq, hsb]
      · have hmem : s ∈ statusEnum := hstat s hsb
        have hcon : statusEnum.contains s = true := by
          simp [List.contains, hmem]
        simp [validateCreate, ht, htieq, hsb, hcon, hmem]
    simp [createTask, hval, ht]

/-- Witness for C7: creating `"buy milk"` with no status yields a
pending task owned by the caller, and a create with status `"done"`
yields the validation error with the store unchanged. -/
theorem C7_create_validates_and_defaults_witness :
    createTask ⟨1, "alice", "user"⟩ ⟨some "buy milk", none, none⟩ [] 7 3
      = (.ok (some ⟨7, "buy milk", none, "pending", 1, 3, 3⟩),
         [⟨7, "buy milk", none, "pending", 1, 3, 3⟩]) ∧
    createTask ⟨1, "alice", "user"⟩ ⟨some "buy milk", none, some "done"⟩ [] 7 3
      = (.error (.fieldErrors 400
          (validateCreate ⟨some "buy milk", none, some "done"⟩)), []) :=
  ⟨(C7_create_validates_and_defaults ⟨1, "alice", "user"⟩
      ⟨some "buy milk", none, none⟩ [] 7 3).2.2
    "buy milk" rfl (by decide) (fun s hs => by cases hs),
   ((C7_create_validates_and_defaults ⟨1, "alice", "user"⟩
      ⟨some "buy milk", none, some "done"⟩ [] 7 3).2.1
    ⟨"done", rfl, by decide⟩).2⟩

/-- The UPDATE statement's column list never touches `id`, `user_id`,
`created_at` or `updated_at`, and leaves each mutable column alone when
the corresponding field is absent from the request. -/
theorem applyUpdates_frame (b : UpdateBody) (x : Task) :
    (applyUpdates b x).id = x.id ∧
    (applyUpdates b x).user_id = x.user_id ∧
    (applyUpdates b x).created_at = x.created_at ∧
    (applyUpdates b x).updated_at = x.updated_at ∧
    (b.title = none → (applyUpdates b x).title = x.title) ∧
    (b.description = none → (applyUpdates b x).description = x.description) ∧
    (b.status = none → (applyUpdates b x).status = x.status) := by
  rcases b with ⟨bt, bd, bs⟩
  simp only [applyUpdates, truthy]
  cases bt <;> cases bd <;> cases bs <;> simp <;> split_ifs <;> simp

/-- Claim C8: on a successful update, the new store is the old one with
exactly the matched task rewritten by the supplied fields, and that
rewrite preserves `id`, `user_id`, `created_at` (and `updated_at`) and
every mutable field that was not supplied. -/
theorem C8_update_frame :
    ∀ (user : Claims) (i : Nat) (b : UpdateBody) (tasks : List Task)
      (p : Option Task) (tasks2 : List Task),
      updateTask user i b tasks = (.ok p, tasks2) →
      tasks2 = tasks.map (fun x => if x.id == i then applyUpdates b x else x) ∧
      ∀ x : Task,
        (applyUpdates b x).id = x.id ∧
        (applyUpdates b x).user_id = x.user_id ∧
        (applyUpdates b x).created_at = x.created_at ∧
        (applyUpdates b x).updated_at = x.updated_at ∧
        (b.title = none → (applyUpdates b x).title = x.title) ∧
        (b.description = none → (applyUpdates b x).description = x.description) ∧
        (b.status = none → (applyUpdates b x).status = x.status) := by
  intro user i b tasks p tasks2 h
  refine ⟨?_, fun x => applyUpdates_frame b x⟩
  by_cases h1 : (validatePut b != []) = true
  · simp [updateTask, h1] at h
  · have h1f : (validatePut b != []) = false := by simpa using h1
    rcases hf : tasks.find? (fun t => t.id == i) with _ | t
    · simp [updateTask, h1f, hf] at h
    · by_cases hg : (user.role != "admin" && t.user_id != user.id) = true
      · simp [updateTask, h1f, hf, hg] at h
      · have hgf : (user.role != "admin" && t.user_id != user.id) = false := by
          simpa using hg
        by_cases hs : (suppliedFields b == 0) = true
        · simp [updateTask, h1f, hf, hgf, hs] at h
        · have hsf : (suppliedFields b == 0) = false := by simpa using hs
          simp only [updateTask, h1f, hf, hgf, hsf, Bool.false_eq_true,
            if_false, if_true, Prod.mk.injEq, Except.ok.injEq] at h
          exact h.2.symm

/-- Witness for C8: after a successful title-only update, the store is
the pointwise rewrite of the old store. -/
theorem C8_update_frame_witness :
    ([⟨1, "new", none, "pending", 1, 5, 5⟩] : List Task)
      = [(⟨1, "old", none, "pending", 1, 5, 5⟩ : Task)].map
          (fun x => if x.id == 1 then applyUpdates ⟨some "new", none, none⟩ x
                    else x) :=
  (C8_update_frame ⟨1, "alice", "user"⟩ 1 ⟨some "new", none, none⟩
      [⟨1, "old", none, "pending", 1, 5, 5⟩]
      (some ⟨1, "new", none, "pending", 1, 5, 5⟩)
      [⟨1, "new", none, "pending", 1, 5, 5⟩] rfl).1

/-- Claim C9: a successful registration persists exactly one new user
with role `"user"`, answers with the token and the four public fields,
and the response is independent of the produced password hash (the hash
never appears in it); the token embeds role `"user"`. -/
theorem C9_register_success :
    ∀ (b : RegisterBody) (users users2 : List User) (newId now : Nat)
      (hash : String → String) (resp : AuthResp),
      register b users newId now hash = (.ok resp, users2) →
      resp.user = ⟨newId, b.username, b.email, "user"⟩ ∧
      resp.token = ⟨newId, b.username, "user"⟩ ∧
      users2 = users
        ++ [⟨newId, b.username, b.email, hash b.password, "user", now⟩] ∧
      ∀ hash2 : String → String,
        (register b users newId now hash2).fst = .ok resp := by
  intro b users users2 newId now hash resp h
  by_cases h1 : (validateRegister b != []) = true
  · simp [register, h1] at h
  · have h1f : (validateRegister b != []) = false := by simpa using h1
    by_cases hd : (users.any fun x =>
        x.email == b.email || x.username == b.username) = true
    · simp [register, h1f, hd] at h
    · have hdf : (users.any fun x =>
          x.email == b.email || x.username == b.username) = false := by
        simpa using hd
      simp only [register, h1f, hdf, Bool.false_eq_true, if_false,
        Prod.mk.injEq, Except.ok.injEq] at h
      refine ⟨?_, ?_, h.2.symm, ?_⟩
      · rw [← h.1]
      · rw [← h.1]
      · intro hash2
        simp [register, h1f, hdf, ← h.1]

/-- Witness for C9: a concrete successful registration; the response's
user and token carry role `"user"` and the four public fields only. -/
theorem C9_register_success_witness :
    (⟨"User registered successfully", ⟨1, "alice", "user"⟩,
        ⟨1, "alice", "alice@x.com", "user"⟩⟩ : AuthResp).user
      = ⟨1, "alice", "alice@x.com", "user"⟩ ∧
    (⟨"User registered successfully", ⟨1, "alice", "user"⟩,
        ⟨1, "alice", "alice@x.com", "user"⟩⟩ : AuthResp).token
      = ⟨1, "alice", "user"⟩ :=
  ⟨(C9_register_success ⟨"alice", "alice@x.com", "secret1"⟩ []
      [⟨1, "alice", "alice@x.com", "H2", "user", 0⟩] 1 0 (fun _ => "H2")
      ⟨"User registered successfully", ⟨1, "alice", "user"⟩,
        ⟨1, "alice", "alice@x.com", "user"⟩⟩ rfl).1,
   (C9_register_success ⟨"alice", "alice@x.com", "secret1"⟩ []
      [⟨1, "alice", "alice@x.com", "H2", "user", 0⟩] 1 0 (fun _ => "H2")
      ⟨"User registered successfully", ⟨1, "alice", "user"⟩,
        ⟨1, "alice", "alice@x.com", "user"⟩⟩ rfl).2.1⟩

/-- Claim C10: a login whose email fails the well-formedness check or
whose password is empty is answered with the 400 field-validation error,
and the result is the same whatever the credential store or password
checker — the store is not consulted. -/
theorem C10_login_validates_first :
    ∀ (email password : String) (users : List User)
      (verify : String → String → Bool),
      isEmail email = false ∨ password = "" →
      validateLogin email password ≠ [] ∧
      login email password users verify
        = .error (.fieldErrors 400 (validateLogin email password)) ∧
      ∀ (users2 : List User) (verify2 : String → String → Bool),
        login email password users2 verify2
          = login email password users verify := by
  intro email password users verify h
  have hne : validateLogin email password ≠ [] := by
    rcases h with h | h <;>
      · intro hc
        simp only [validateLogin, h] at hc
        simp at hc
  have hb : (validateLogin email password != []) = true := by simpa using hne
  refine ⟨hne, by simp [login, hb], ?_⟩
  intro users2 verify2
  simp [login, hb]

/-- Witness for C10: a malformed email is rejected with the validation
error without touching a non-empty store. -/
theorem C10_login_validates_first_witness :
    login "nope" "secret" [⟨1, "alice", "alice@x.com", "H", "user", 0⟩]
        (fun _ _ => true)
      = .error (.fieldErrors 400 (validateLogin "nope" "secret")) :=
  (C10_login_validates_first "nope" "secret"
      [⟨1, "alice", "alice@x.com", "H", "user", 0⟩] (fun _ _ => true)
      (Or.inl (by decide))).2.1

end TaskApp
